import Mathlib

/-!
# DirectX11_Sandbox: `GraphicsSystem`

A shallow embedding of `src/Graphics/GraphicsSystem.cpp`.

* A COM interface pointer (`ComPtr<T>`, `unique_ptr<T>`, raw `T*`) is an `Option` of an
  opaque handle: `none` is `nullptr`.
* Every call into Direct3D / DXGI is appended, with its arguments, to the ghost field
  `calls` of the state; what the call hands back is read from a `World` record, so the
  functions below are defined for every possible answer of the driver.
* A member function is a function from the state to `Except Abort GraphicsSystem`:
  it either returns, or it stops at a failed `ASSERT_DEBUG` or at the dereference of a
  null pointer; an `Abort` remembers the calls issued up to that point.
* `UINT` arithmetic that can wrap is written with an explicit `% 2 ^ 32`;
  `static_cast<float>` of a `UINT` rounds to the nearest binary32 value.
-/

namespace DX11

/-! ## Basic types -/

/-- An opaque handle of a COM object, a heap object or a GPU resource. -/
abbrev Handle := Nat

/-- A `ComPtr<T>`, `unique_ptr<T>` or `T*`: `none` is `nullptr`. -/
abbrev Ptr := Option Handle

/-- A Win32 `HRESULT`. -/
abbrev HRESULT := Int

/-- The Win32 constant `S_OK`. -/
def S_OK : HRESULT := 0

/-- The Win32 test `SUCCEEDED(hr)`: the result is not negative. -/
def SUCCEEDED (hr : HRESULT) : Bool := decide (0 ≤ hr)

/-- A `UINT`: a natural number below `2 ^ 32`. -/
abbrev UINT := Nat

/-- Subtraction of `UINT` values, which wraps around modulo `2 ^ 32`. -/
def UINT.sub (a b : UINT) : UINT := (a % 2 ^ 32 + (2 ^ 32 - b % 2 ^ 32)) % 2 ^ 32

/-- Conversion of a `LONG` to `UINT`, modulo `2 ^ 32`. -/
def UINT.ofLONG (i : Int) : UINT := (i % 2 ^ 32).toNat

/-- A `float` holding an integral value. The only `float`s the embedded code stores are
the literals `0.0f`, `1.0f` and `static_cast<float>` of a window dimension; the binary32
value nearest to a natural number below `2 ^ 128` is itself an integer, so a `FLOAT` is
represented by the integer it holds. -/
abbrev FLOAT := Int

/-- The number of low bits a natural number loses when it is cut to the 24-bit significand
of binary32: the least `k` with `n / 2 ^ k < 2 ^ 24` (`fuel` bounds the search; `n`
itself is enough). -/
def excessBits : Nat → Nat → Nat
  | 0, _ => 0
  | fuel + 1, n => if n < 2 ^ 24 then 0 else excessBits fuel (n / 2) + 1

/-- The conversion `static_cast<float>(n)` of a `UINT`: the nearest binary32 value, ties
to the even significand. Below `2 ^ 24` every integer is kept; above, the low
`excessBits` bits are rounded away. -/
def static_cast_float (n : UINT) : FLOAT :=
  if n < 2 ^ 24 then (n : Int)
  else
    let shift := excessBits n n
    let q := n / 2 ^ shift
    let r := n % 2 ^ shift
    let half := 2 ^ shift / 2
    let q1 := if half < r ∨ (r = half ∧ q % 2 = 1) then q + 1 else q
    ((q1 * 2 ^ shift : Nat) : Int)

/-- The Win32 `HWND`. -/
abbrev HWND := Nat

/-- The Win32 `RECT`, with `LONG` members. -/
structure RECT where
  left : Int
  top : Int
  right : Int
  bottom : Int
deriving DecidableEq, Repr

/-- The enumeration `D3D_FEATURE_LEVEL`, by its numeric value. -/
abbrev D3D_FEATURE_LEVEL := Nat

/-- The constant `D3D_FEATURE_LEVEL_11_0` (`0xb000`). -/
def D3D_FEATURE_LEVEL_11_0 : D3D_FEATURE_LEVEL := 0xb000

/-- The constant `D3D_FEATURE_LEVEL_10_1` (`0xa100`). -/
def D3D_FEATURE_LEVEL_10_1 : D3D_FEATURE_LEVEL := 0xa100

/-- The enumeration `D3D11_SHADER_VERSION_TYPE`. -/
inductive D3D11_SHADER_VERSION_TYPE where
  | D3D11_SHVER_PIXEL_SHADER
  | D3D11_SHVER_VERTEX_SHADER
  | D3D11_SHVER_GEOMETRY_SHADER
  | D3D11_SHVER_HULL_SHADER
  | D3D11_SHVER_DOMAIN_SHADER
  | D3D11_SHVER_COMPUTE_SHADER
deriving DecidableEq, Repr

/-- The tag of a `Shader`. The source names `Shader::SHADER_VERTEX` and
`Shader::SHADER_PIXEL`; the `switch` of `_SetShader` has no `default`, so any other
value of the enumeration is kept apart as `SHADER_OTHER`. -/
inductive ShaderType where
  | SHADER_VERTEX
  | SHADER_PIXEL
  | SHADER_OTHER (tag : Nat)
deriving DecidableEq, Repr

/-- A `Shader` object as `GraphicsSystem.cpp` reads it: its tag (`GetShaderType()`) and the
members `m_inputLayout`, `m_vertexShader`, `m_pixelShader`. -/
structure Shader where
  shaderType : ShaderType
  m_inputLayout : Ptr
  m_vertexShader : Ptr
  m_pixelShader : Ptr
deriving DecidableEq, Repr

/-- The accessor `Shader::GetShaderType()`. -/
def Shader.GetShaderType (s : Shader) : ShaderType := s.shaderType

/-- The mesh made by the geometry generator: `m_Vertices` (one handle per vertex record)
and `m_Indices`. -/
structure Shape where
  m_Vertices : List Nat
  m_Indices : List Nat
deriving DecidableEq, Repr

/-- The structure `DXGI_SAMPLE_DESC`. -/
structure DXGI_SAMPLE_DESC where
  Count : UINT
  Quality : UINT
deriving DecidableEq, Repr

/-- The structure `D3D11_VIEWPORT`. -/
structure D3D11_VIEWPORT where
  TopLeftX : FLOAT
  TopLeftY : FLOAT
  Width : FLOAT
  Height : FLOAT
  MinDepth : FLOAT
  MaxDepth : FLOAT
deriving DecidableEq, Repr

/-- The pixel formats named in the source. -/
inductive DXGI_FORMAT where
  | DXGI_FORMAT_R8G8B8A8_UNORM
  | DXGI_FORMAT_D24_UNORM_S8_UINT
  | DXGI_FORMAT_R32_UINT
deriving DecidableEq, Repr

/-- The structure `D3D11_TEXTURE2D_DESC`, with the members `OnResize` fills in; `Usage`,
`BindFlags` are kept by name. -/
structure D3D11_TEXTURE2D_DESC where
  Width : UINT
  Height : UINT
  MipLevels : UINT
  ArraySize : UINT
  Format : DXGI_FORMAT
  SampleDesc : DXGI_SAMPLE_DESC
  Usage : String
  BindFlags : String
  CPUAccessFlags : UINT
  MiscFlags : UINT
deriving DecidableEq, Repr

/-- The structure `DXGI_SWAP_CHAIN_DESC`, with `BufferDesc` flattened. -/
structure DXGI_SWAP_CHAIN_DESC where
  BufferDesc_Width : UINT
  BufferDesc_Height : UINT
  BufferDesc_RefreshRate_Numerator : UINT
  BufferDesc_RefreshRate_Denominator : UINT
  BufferDesc_Format : DXGI_FORMAT
  BufferDesc_ScanlineOrdering : String
  BufferDesc_Scaling : String
  SampleDesc : DXGI_SAMPLE_DESC
  BufferUsage : String
  BufferCount : UINT
  OutputWindow : HWND
  Windowed : Bool
  SwapEffect : String
  Flags : UINT
deriving DecidableEq, Repr

/-- A call issued to Direct3D, DXGI or the heap, with the arguments the source passes. -/
inductive GpuCall where
  | D3D11CreateDevice (driverType : Nat) (createDeviceFlags : UINT)
  | CheckMultisampleQualityLevels (format : DXGI_FORMAT) (sampleCount : UINT)
  | CreateSwapChain (device : Ptr) (sd : DXGI_SWAP_CHAIN_DESC)
  | CreateBuffer (device : Ptr) (bindFlag : String) (name : String)
  | CreateConstantBuffer (device : Ptr) (name : String)
  | CreateWICTextureFromFile (device : Ptr) (filename : String)
  | DeleteShaderFactory (factory : Handle)
  | ClearState
  | OMSetRenderTargets (numViews : UINT) (renderTargetView : Ptr) (depthStencilView : Ptr)
  | ResizeBuffers (bufferCount : UINT) (width height : UINT) (format : DXGI_FORMAT)
      (flags : UINT)
  | GetBuffer (buffer : UINT)
  | CreateRenderTargetView (resource : Ptr)
  | CreateTexture2D (desc : D3D11_TEXTURE2D_DESC)
  | CreateDepthStencilView (resource : Ptr)
  | OMSetDepthStencilState (state : String) (stencilRef : UINT)
  | RSSetState (state : String)
  | RSSetViewports (numViewports : UINT) (viewport : D3D11_VIEWPORT)
  | Map (resource : Ptr)
  | Unmap (resource : Ptr)
  | IASetInputLayout (inputLayout : Ptr)
  | IASetVertexBuffers (startSlot numBuffers : UINT) (buffer : Ptr)
  | IASetIndexBuffer (buffer : Ptr) (format : DXGI_FORMAT) (offset : UINT)
  | IASetPrimitiveTopology (topology : String)
  | VSSetShader (shader : Ptr)
  | VSSetConstantBuffers (startSlot numBuffers : UINT) (buffer : Ptr)
  | PSSetShader (shader : Ptr)
  | PSSetShaderResources (startSlot numViews : UINT) (view : Ptr)
  | PSSetSamplers (startSlot numSamplers : UINT) (sampler : String)
  | OMSetBlendState (state : String) (sampleMask : UINT)
  | ClearRenderTargetView (renderTargetView : Ptr)
  | ClearDepthStencilView (depthStencilView : Ptr) (clearFlags : String) (depth : FLOAT)
      (stencil : UINT)
  | DrawIndexed (indexCount startIndexLocation : UINT) (baseVertexLocation : Int)
  | Present (syncInterval flags : UINT)
deriving DecidableEq, Repr

/-- Why a member function did not return. -/
inductive Fault where
  | assertion (message : String)
  | nullDereference (pointer : String)
deriving DecidableEq, Repr

/-- A member function that stopped: the fault, and the calls issued until then. -/
structure Abort where
  fault : Fault
  calls : List GpuCall
deriving DecidableEq, Repr

/-! ## The state -/

/-- The members of `GraphicsSystem` that `GraphicsSystem.cpp` reads or writes, and the
ghost field `calls`: the calls issued so far, oldest first. The class is declared in
`GraphicsSystem.h`, which is not in src: each member has the type of the places the source
passes it to (`m_Window_Width`, `m_Window_Height` and `m_4xMsaaQuality` go to `UINT`
members and parameters). -/
structure GraphicsSystem where
  m_HWnd : HWND
  m_Window_Width : UINT
  m_Window_Height : UINT
  m_driverType : Nat
  m_featureLevel : D3D_FEATURE_LEVEL
  m_enable4xMsaa : Bool
  m_4xMsaaQuality : UINT
  m_vsync_enabled : Bool
  m_frameRateDenom : UINT
  m_device : Ptr
  m_deviceContext : Ptr
  m_swapChain : Ptr
  m_renderTargetView : Ptr
  m_depthStencilBuffer : Ptr
  m_depthStencilView : Ptr
  m_commonStates : Ptr
  m_shaderFactory : Ptr
  m_screenViewport : D3D11_VIEWPORT
  m_pVertexShader : Option Shader
  m_pPixelShader : Option Shader
  shader_worldBuffer : Ptr
  shape : Option Shape
  shape_vertices : Ptr
  shape_indices : Ptr
  m_texture : Ptr
  m_textureView : Ptr
  calls : List GpuCall
deriving DecidableEq, Repr

/-- The values the plain-data members start from. They are set by the member
initialisers of `GraphicsSystem.h`, which is not in src, and are taken as a parameter. -/
structure MemberDefaults where
  m_driverType : Nat
  m_featureLevel : D3D_FEATURE_LEVEL
  m_enable4xMsaa : Bool
  m_4xMsaaQuality : UINT
  m_vsync_enabled : Bool
  m_frameRateDenom : UINT
  m_screenViewport : D3D11_VIEWPORT

/-! ## The outside world -/

/-- What `D3D11CreateDevice` hands back: the `HRESULT` and the values written through
`&m_device`, `&m_featureLevel` (`none`: nothing written) and `&m_deviceContext`. -/
structure CreateDeviceResult where
  hr : HRESULT
  device : Ptr
  featureLevel : Option D3D_FEATURE_LEVEL
  immediateContext : Ptr

/-- The answers of the window system, the driver and the helper libraries to the calls of
`GraphicsSystem.cpp`. The helpers `ShaderFactory`, `GeometryGenerator`, `CreateBuffer`,
`CreateConstantBuffer` and `CreateWICTextureFromFile` are not in src: what they hand back
is a member of this record. -/
structure World where
  GetClientRect : HWND → RECT
  D3D11CreateDevice : CreateDeviceResult
  CheckMultisampleQualityLevels : HRESULT × UINT
  newShaderFactory : Handle
  newCommonStates : Handle
  As_IDXGIDevice : Ptr
  GetParent_IDXGIAdapter : HRESULT × Ptr
  GetParent_IDXGIFactory : HRESULT × Ptr
  CreateSwapChain : HRESULT × Ptr
  ResizeBuffers : HRESULT
  GetBuffer : HRESULT × Ptr
  CreateRenderTargetView : Ptr
  CreateTexture2D : HRESULT × Ptr
  CreateDepthStencilView : HRESULT × Ptr
  CreateTeapot : Option Shape
  CreateBuffer_vertex : Ptr
  CreateBuffer_index : Ptr
  BuildCompiledShader : String → D3D11_SHADER_VERSION_TYPE → Option Shader
  BuildSourceShader : String → String → String → Option Shader
  CreateConstantBuffer : Ptr
  CreateWICTextureFromFile : String → HRESULT × Ptr × Ptr
  Map : HRESULT × Ptr
  Present : HRESULT

namespace GraphicsSystem

/-- Record one call. -/
def call (g : GraphicsSystem) (c : GpuCall) : GraphicsSystem :=
  { g with calls := g.calls ++ [c] }

/-- The constructor `GraphicsSystem::GraphicsSystem()`: its body is empty. Every `ComPtr`
and `unique_ptr` member is default-constructed to null; the raw pointers
`m_shaderFactory`, `m_pVertexShader`, `m_pPixelShader` start null as well, which the null
tests of `DeInit` and `Update` rely on. -/
def constructor (d : MemberDefaults) : DX11.GraphicsSystem :=
  { m_HWnd := 0
    m_Window_Width := 0
    m_Window_Height := 0
    m_driverType := d.m_driverType
    m_featureLevel := d.m_featureLevel
    m_enable4xMsaa := d.m_enable4xMsaa
    m_4xMsaaQuality := d.m_4xMsaaQuality
    m_vsync_enabled := d.m_vsync_enabled
    m_frameRateDenom := d.m_frameRateDenom
    m_device := none
    m_deviceContext := none
    m_swapChain := none
    m_renderTargetView := none
    m_depthStencilBuffer := none
    m_depthStencilView := none
    m_commonStates := none
    m_shaderFactory := none
    m_screenViewport := d.m_screenViewport
    m_pVertexShader := none
    m_pPixelShader := none
    shader_worldBuffer := none
    shape := none
    shape_vertices := none
    shape_indices := none
    m_texture := none
    m_textureView := none
    calls := [] }

end GraphicsSystem

/-! ## Assertions and pointer dereference -/

/-- Modelled from the spec: the macro `ASSERT_DEBUG` of `Debugging/AssertPem.h`, which is
not in src: "assert(condition, message) → abort-if-debug", "fatal-on-failure in debug
builds, no-op in release". `dbg` says whether `_DEBUG` is defined. -/
def ASSERT_DEBUG (dbg : Bool) (g : GraphicsSystem) (condition : Bool) (message : String) :
    Except Abort Unit :=
  if dbg && !condition then .error ⟨.assertion message, g.calls⟩ else .ok ()

/-- The use `p->...` of a pointer: a null pointer stops the program. -/
def deref {α : Type} (g : GraphicsSystem) (name : String) (p : Option α) : Except Abort α :=
  match p with
  | some a => .ok a
  | none => .error ⟨.nullDereference name, g.calls⟩

/-- The calls issued by a run, whether it returned or stopped. -/
def issued : Except Abort GraphicsSystem → List GpuCall
  | .ok g => g.calls
  | .error a => a.calls

namespace GraphicsSystem

/-! ## `~GraphicsSystem`, `DeInit`, `_SetShader` -/

/-- The destructor `GraphicsSystem::~GraphicsSystem()`:
`ASSERT_DEBUG(m_device == nullptr, "Did not Call DeInit().")`. -/
def destructor (dbg : Bool) (g : DX11.GraphicsSystem) : Except Abort Unit :=
  ASSERT_DEBUG dbg g (g.m_device == none) "Did not Call DeInit()."

/-- The member `GraphicsSystem::DeInit()`. The `delete` is recorded as a call and leaves
`m_shaderFactory` as it is (the heap is not represented); the seven assignments of
`nullptr` follow. -/
def DeInit (g : DX11.GraphicsSystem) : DX11.GraphicsSystem :=
  let g := match g.m_shaderFactory with
    | some f => g.call (.DeleteShaderFactory f)
    | none => g
  let g := match g.m_deviceContext with
    | some _ => g.call .ClearState
    | none => g
  { g with
    m_depthStencilBuffer := none
    m_depthStencilView := none
    m_renderTargetView := none
    m_swapChain := none
    m_commonStates := none
    m_deviceContext := none
    m_device := none }

/-- The member `GraphicsSystem::_SetShader(Shader* shader)`. -/
def _SetShader (g : DX11.GraphicsSystem) (shader : Option Shader) :
    Except Abort DX11.GraphicsSystem := do
  let s ← deref g "shader" shader
  match s.GetShaderType with
  | .SHADER_VERTEX => pure { g with m_pVertexShader := shader }
  | .SHADER_PIXEL => pure { g with m_pPixelShader := shader }
  | .SHADER_OTHER _ => pure g

/-! ## `OnResize` -/

/-- The sample description shared by the swap chain and the depth-stencil texture:
`Count = m_enable4xMsaa ? 4 : 1`, `Quality = m_enable4xMsaa ? m_4xMsaaQuality-1 : 0`,
the subtraction being one of `UINT`. -/
def sampleDesc (g : DX11.GraphicsSystem) : DXGI_SAMPLE_DESC :=
  { Count := if g.m_enable4xMsaa then 4 else 1
    Quality := if g.m_enable4xMsaa then UINT.sub g.m_4xMsaaQuality 1 else 0 }

/-- The local `depthStencilTextureDesc` that `OnResize` fills in. -/
def depthStencilTextureDesc (g : DX11.GraphicsSystem) : D3D11_TEXTURE2D_DESC :=
  { Width := g.m_Window_Width
    Height := g.m_Window_Height
    MipLevels := 1
    ArraySize := 1
    Format := .DXGI_FORMAT_D24_UNORM_S8_UINT
    SampleDesc := sampleDesc g
    Usage := "D3D11_USAGE_DEFAULT"
    BindFlags := "D3D11_BIND_DEPTH_STENCIL"
    CPUAccessFlags := 0
    MiscFlags := 0 }

/-- The viewport `OnResize` stores in `m_screenViewport`. -/
def screenViewport (g : DX11.GraphicsSystem) : D3D11_VIEWPORT :=
  { TopLeftX := 0
    TopLeftY := 0
    Width := static_cast_float g.m_Window_Width
    Height := static_cast_float g.m_Window_Height
    MinDepth := 0
    MaxDepth := 1 }

/-- The member `GraphicsSystem::OnResize()`. Its `int` result is the constant `0` and is
left out. It reads the window size from `m_Window_Width`, `m_Window_Height` only. -/
def OnResize (dbg : Bool) (w : World) (g : DX11.GraphicsSystem) :
    Except Abort DX11.GraphicsSystem := do
  ASSERT_DEBUG dbg g g.m_deviceContext.isSome "Device Context is null."
  ASSERT_DEBUG dbg g g.m_device.isSome "Device is null. How did that happen?"
  ASSERT_DEBUG dbg g g.m_swapChain.isSome "Swap chain is null. This is really bad."
  -- free resources
  let g := { g with m_depthStencilView := none, m_renderTargetView := none }
  let _ ← deref g "m_deviceContext" g.m_deviceContext
  let g := g.call (.OMSetRenderTargets 0 none none)
  let g := g.call .ClearState
  -- resize swap chain buffers
  let _ ← deref g "m_swapChain" g.m_swapChain
  let g := g.call (.ResizeBuffers 1 g.m_Window_Width g.m_Window_Height
    .DXGI_FORMAT_R8G8B8A8_UNORM 0)
  ASSERT_DEBUG dbg g (SUCCEEDED w.ResizeBuffers) "Failed to resize swap chain buffers."
  -- create the render target view
  let g := g.call (.GetBuffer 0)
  let backBuffer := w.GetBuffer.2
  ASSERT_DEBUG dbg g (SUCCEEDED w.GetBuffer.1)
    "FAILED: Failed to get backbuffer from swap chain.\n"
  let _ ← deref g "m_device" g.m_device
  let g := g.call (.CreateRenderTargetView backBuffer)
  let g := { g with m_renderTargetView := w.CreateRenderTargetView }
  -- create the depth stencil view
  let g := g.call (.CreateTexture2D (depthStencilTextureDesc g))
  let g := { g with m_depthStencilBuffer := w.CreateTexture2D.2 }
  ASSERT_DEBUG dbg g (SUCCEEDED w.CreateTexture2D.1)
    "FAILED: Failed to create depth stencil buffer."
  let g := g.call (.CreateDepthStencilView g.m_depthStencilBuffer)
  let g := { g with m_depthStencilView := w.CreateDepthStencilView.2 }
  ASSERT_DEBUG dbg g (SUCCEEDED w.CreateDepthStencilView.1)
    "FAILED: Failed to create depth stencil view."
  -- bind the render targets
  let _ ← deref g "m_commonStates" g.m_commonStates
  let g := g.call (.OMSetDepthStencilState "DepthDefault" 1)
  let g := g.call (.OMSetRenderTargets 1 g.m_renderTargetView g.m_depthStencilView)
  -- render state
  let g := g.call (.RSSetState "CullNone")
  -- viewport
  let g := { g with m_screenViewport := screenViewport g }
  let g := g.call (.RSSetViewports 1 g.m_screenViewport)
  pure g

/-! ## `Init` -/

/-- The local `sd` that `Init` fills in. -/
def swapChainDesc (g : DX11.GraphicsSystem) : DXGI_SWAP_CHAIN_DESC :=
  { BufferDesc_Width := g.m_Window_Width
    BufferDesc_Height := g.m_Window_Height
    BufferDesc_RefreshRate_Numerator := if g.m_vsync_enabled then 1 else 0
    BufferDesc_RefreshRate_Denominator := if g.m_vsync_enabled then g.m_frameRateDenom else 1
    BufferDesc_Format := .DXGI_FORMAT_R8G8B8A8_UNORM
    BufferDesc_ScanlineOrdering := "DXGI_MODE_SCANLINE_ORDER_UNSPECIFIED"
    BufferDesc_Scaling := "DXGI_MODE_SCALING_UNSPECIFIED"
    SampleDesc := sampleDesc g
    BufferUsage := "DXGI_USAGE_RENDER_TARGET_OUTPUT"
    BufferCount := 1
    OutputWindow := g.m_HWnd
    Windowed := true
    SwapEffect := "DXGI_SWAP_EFFECT_DISCARD"
    Flags := 0 }

/-- The member `GraphicsSystem::Init(HWND ghMainWnd)`. `ASSERT_WARNING` and `LOG` only
print and are left out. -/
def Init (dbg : Bool) (w : World) (ghMainWnd : HWND) (g : DX11.GraphicsSystem) :
    Except Abort DX11.GraphicsSystem := do
  let g := { g with m_HWnd := ghMainWnd }
  -- window size
  let rc := w.GetClientRect g.m_HWnd
  let g := { g with m_Window_Width := UINT.ofLONG (rc.right - rc.left) }
  let g := { g with m_Window_Height := UINT.ofLONG (rc.bottom - rc.top) }
  let createDeviceFlags : UINT := if dbg then 2 else 0
  -- create the device
  let g := g.call (.D3D11CreateDevice g.m_driverType createDeviceFlags)
  let hr := w.D3D11CreateDevice.hr
  let g := { g with
    m_device := w.D3D11CreateDevice.device
    m_featureLevel := w.D3D11CreateDevice.featureLevel.getD g.m_featureLevel
    m_deviceContext := w.D3D11CreateDevice.immediateContext }
  ASSERT_DEBUG dbg g (SUCCEEDED hr) "D3D11CreateDevice not created.\n"
  if g.m_featureLevel ≠ D3D_FEATURE_LEVEL_11_0 then
    ASSERT_DEBUG dbg g false "Direct3D Feature Level 11 unsupported.\n"
    pure g
  else
    let _ ← deref g "m_device" g.m_device
    let g := g.call (.CheckMultisampleQualityLevels .DXGI_FORMAT_R8G8B8A8_UNORM 4)
    let hr := w.CheckMultisampleQualityLevels.1
    let g := { g with m_4xMsaaQuality := w.CheckMultisampleQualityLevels.2 }
    ASSERT_DEBUG dbg g (SUCCEEDED hr) "Error Checking Multi Sample Quality Levels. \n"
    -- shader factory, common states
    let g := { g with m_shaderFactory := some w.newShaderFactory }
    let g := { g with m_commonStates := some w.newCommonStates }
    -- swap chain description
    let sd := swapChainDesc g
    -- create the swap chain; the result of `m_device.As` is not stored in `hr`
    let dxgiDevice := w.As_IDXGIDevice
    ASSERT_DEBUG dbg g (SUCCEEDED hr) "Could not retrieve dxgiInterface.\n"
    let _ ← deref g "dxgiDevice" dxgiDevice
    let hr := w.GetParent_IDXGIAdapter.1
    let dxgiAdapter := w.GetParent_IDXGIAdapter.2
    ASSERT_DEBUG dbg g (SUCCEEDED hr) "Could not retrieve dxgiAdapter.\n"
    let _ ← deref g "dxgiAdapter" dxgiAdapter
    let hr := w.GetParent_IDXGIFactory.1
    let dxgiFactory := w.GetParent_IDXGIFactory.2
    ASSERT_DEBUG dbg g (SUCCEEDED hr) "Could not retrieve dxgiFactory.\n"
    let _ ← deref g "dxgiFactory" dxgiFactory
    let g := g.call (.CreateSwapChain g.m_device sd)
    let hr := w.CreateSwapChain.1
    let g := { g with m_swapChain := w.CreateSwapChain.2 }
    ASSERT_DEBUG dbg g (SUCCEEDED hr) "Could not create SwapChain.\n"
    let g ← OnResize dbg w g
    -- the shape to render
    let g := { g with shape := w.CreateTeapot }
    let _ ← deref g "shape" g.shape
    let g := g.call (.CreateBuffer g.m_device "D3D11_BIND_VERTEX_BUFFER" "Shape_Vertex_Buffer")
    let g := { g with shape_vertices := w.CreateBuffer_vertex }
    let _ ← deref g "shape" g.shape
    let g := g.call (.CreateBuffer g.m_device "D3D11_BIND_INDEX_BUFFER" "Shape_Index_Buffer")
    let g := { g with shape_indices := w.CreateBuffer_index }
    pure g

/-! ## Shader and texture loading -/

/-- The member `GraphicsSystem::LoadCompiledShader(shaderFilename, shaderType)`. -/
def LoadCompiledShader (w : World) (shaderFilename : String)
    (shaderType : D3D11_SHADER_VERSION_TYPE) (g : DX11.GraphicsSystem) :
    Except Abort DX11.GraphicsSystem := do
  let _ ← deref g "m_shaderFactory" g.m_shaderFactory
  let shader := w.BuildCompiledShader shaderFilename shaderType
  let g ← _SetShader g shader
  if shaderType = .D3D11_SHVER_VERTEX_SHADER then
    let g := g.call (.CreateConstantBuffer g.m_device "WorldCbuffer")
    pure { g with shader_worldBuffer := w.CreateConstantBuffer }
  else
    pure g

/-- The member `GraphicsSystem::LoadSourceShader(shaderFilename, EntryPoint, ShaderModel)`. -/
def LoadSourceShader (w : World) (shaderFilename EntryPoint ShaderModel : String)
    (g : DX11.GraphicsSystem) : Except Abort DX11.GraphicsSystem := do
  let _ ← deref g "m_shaderFactory" g.m_shaderFactory
  let shader := w.BuildSourceShader shaderFilename EntryPoint ShaderModel
  _SetShader g shader

/-- The member `GraphicsSystem::LoadTexture(filename)`. -/
def LoadTexture (dbg : Bool) (w : World) (filename : String) (g : DX11.GraphicsSystem) :
    Except Abort DX11.GraphicsSystem := do
  let g := g.call (.CreateWICTextureFromFile g.m_device filename)
  let r := w.CreateWICTextureFromFile filename
  let g := { g with m_texture := r.2.1, m_textureView := r.2.2 }
  ASSERT_DEBUG dbg g (SUCCEEDED r.1) ""
  pure g

/-! ## The frame -/

/-- The member `GraphicsSystem::ClearRenderTarget()`. -/
def ClearRenderTarget (g : DX11.GraphicsSystem) : Except Abort DX11.GraphicsSystem := do
  let _ ← deref g "m_deviceContext" g.m_deviceContext
  let g := g.call (.ClearRenderTargetView g.m_renderTargetView)
  let g := g.call (.ClearDepthStencilView g.m_depthStencilView
    "D3D11_CLEAR_DEPTH | D3D11_CLEAR_STENCIL" 1 0)
  pure g

/-- The member `GraphicsSystem::SwapBuffers()`. -/
def SwapBuffers (dbg : Bool) (w : World) (g : DX11.GraphicsSystem) :
    Except Abort DX11.GraphicsSystem := do
  let _ ← deref g "m_swapChain" g.m_swapChain
  let g := g.call (.Present (if g.m_vsync_enabled then 1 else 0) 0)
  ASSERT_DEBUG dbg g (SUCCEEDED w.Present) "Swap chain swapping failed."
  pure g

/-- The member `GraphicsSystem::Update()`. The transform is floating-point data and is not
represented: of the upload only `Map`, the `memcpy` through `resource.pData` (a null
`pData`, which `ZeroMemory` leaves when `Map` writes nothing, stops the program) and
`Unmap` are kept. The fourth assertion tests `m_pVertexShader`, as the source does. The
index count `shape->m_Indices.size()` is passed on as it is. -/
def Update (dbg : Bool) (w : World) (g : DX11.GraphicsSystem) :
    Except Abort DX11.GraphicsSystem := do
  ASSERT_DEBUG dbg g g.m_deviceContext.isSome "Device Context is null."
  ASSERT_DEBUG dbg g g.m_swapChain.isSome "Swap chain is null."
  ASSERT_DEBUG dbg g g.m_pVertexShader.isSome "Vertex Shader is null."
  ASSERT_DEBUG dbg g g.m_pVertexShader.isSome "Pixel Shader is null."
  -- upload the transform
  let _ ← deref g "m_deviceContext" g.m_deviceContext
  let g := g.call (.Map g.shader_worldBuffer)
  let _ ← deref g "resource.pData" w.Map.2
  let g := g.call (.Unmap g.shader_worldBuffer)
  -- inputs
  let vs ← deref g "m_pVertexShader" g.m_pVertexShader
  let g := g.call (.IASetInputLayout vs.m_inputLayout)
  let g := g.call (.IASetVertexBuffers 0 1 g.shape_vertices)
  let g := g.call (.IASetIndexBuffer g.shape_indices .DXGI_FORMAT_R32_UINT 0)
  let g := g.call (.IASetPrimitiveTopology "D3D_PRIMITIVE_TOPOLOGY_TRIANGLELIST")
  -- vertex shader
  let g := g.call (.VSSetShader vs.m_vertexShader)
  let g := g.call (.VSSetConstantBuffers 0 1 g.shader_worldBuffer)
  -- pixel shader
  let ps ← deref g "m_pPixelShader" g.m_pPixelShader
  let g := g.call (.PSSetShader ps.m_pixelShader)
  let g := g.call (.PSSetShaderResources 0 1 g.m_textureView)
  let _ ← deref g "m_commonStates" g.m_commonStates
  let g := g.call (.PSSetSamplers 0 1 "AnisotropicWrap")
  -- output merger
  let g := g.call (.OMSetBlendState "Opaque" 0xffffffff)
  -- draw
  let g ← ClearRenderTarget g
  let shape ← deref g "shape" g.shape
  let g := g.call (.DrawIndexed shape.m_Indices.length 0 0)
  SwapBuffers dbg w g

end GraphicsSystem

/-! ## Public operations, state predicates, sample inputs -/

/-- A public operation of `GraphicsSystem`, with its arguments. -/
inductive Op where
  | Init (ghMainWnd : HWND)
  | OnResize
  | LoadCompiledShader (shaderFilename : String) (shaderType : D3D11_SHADER_VERSION_TYPE)
  | LoadSourceShader (shaderFilename EntryPoint ShaderModel : String)
  | LoadTexture (filename : String)
  | Update
  | DeInit
deriving DecidableEq, Repr

/-- Whether an operation is a call of `Init`. -/
def Op.isInit : Op → Bool
  | .Init _ => true
  | _ => false

/-- One public operation, run in the world `w`. -/
def Op.run (dbg : Bool) (w : World) : Op → GraphicsSystem → Except Abort GraphicsSystem
  | .Init ghMainWnd, g => GraphicsSystem.Init dbg w ghMainWnd g
  | .OnResize, g => GraphicsSystem.OnResize dbg w g
  | .LoadCompiledShader f t, g => GraphicsSystem.LoadCompiledShader w f t g
  | .LoadSourceShader f e m, g => GraphicsSystem.LoadSourceShader w f e m g
  | .LoadTexture f, g => GraphicsSystem.LoadTexture dbg w f g
  | .Update, g => GraphicsSystem.Update dbg w g
  | .DeInit, g => .ok (GraphicsSystem.DeInit g)

/-- A session: public operations run one after the other, each in the world of its time;
the session stops at the first operation that does not return. -/
def runAll (dbg : Bool) : List (World × Op) → GraphicsSystem → Except Abort GraphicsSystem
  | [], g => .ok g
  | (w, op) :: rest, g =>
    match op.run dbg w g with
    | .ok g' => runAll dbg rest g'
    | .error a => .error a

/-- The fault of a run that stopped. -/
def faultOf {α : Type} : Except Abort α → Option Fault
  | .ok _ => none
  | .error a => some a.fault

/-- Device, immediate context and swap chain are all null or all non-null. -/
def Consistent (g : GraphicsSystem) : Prop :=
  g.m_device.isSome = g.m_deviceContext.isSome ∧
  g.m_deviceContext.isSome = g.m_swapChain.isSome

instance (g : GraphicsSystem) : Decidable (Consistent g) := by
  unfold Consistent; infer_instance

/-- What a completed `Init` leaves in place: device, context, swap chain and the common
render states. -/
def Initialized (g : GraphicsSystem) : Prop :=
  g.m_device.isSome ∧ g.m_deviceContext.isSome ∧ g.m_swapChain.isSome ∧
  g.m_commonStates.isSome

instance (g : GraphicsSystem) : Decidable (Initialized g) := by
  unfold Initialized; infer_instance

/-- The state `Ready` of the frame orchestrator: initialised, the mesh generated, and a
vertex and a pixel shader bound. -/
def Ready (g : GraphicsSystem) : Prop :=
  Initialized g ∧ g.shape.isSome ∧ g.m_pVertexShader.isSome ∧ g.m_pPixelShader.isSome

instance (g : GraphicsSystem) : Decidable (Ready g) := by
  unfold Ready; infer_instance

/-- The four checked calls of `OnResize` succeed. -/
def OnResizeSucceeds (w : World) : Prop :=
  SUCCEEDED w.ResizeBuffers = true ∧ SUCCEEDED w.GetBuffer.1 = true ∧
  SUCCEEDED w.CreateTexture2D.1 = true ∧ SUCCEEDED w.CreateDepthStencilView.1 = true

instance (w : World) : Decidable (OnResizeSucceeds w) := by
  unfold OnResizeSucceeds; infer_instance

/-- Sample member defaults: multisampling off, vsync on at 60 Hz. -/
def sampleDefaults : MemberDefaults :=
  { m_driverType := 1
    m_featureLevel := D3D_FEATURE_LEVEL_11_0
    m_enable4xMsaa := false
    m_4xMsaaQuality := 0
    m_vsync_enabled := true
    m_frameRateDenom := 60
    m_screenViewport := ⟨0, 0, 0, 0, 0, 0⟩ }

/-- A sample vertex shader. -/
def sampleVertexShader : Shader := ⟨.SHADER_VERTEX, some 31, some 32, none⟩

/-- A sample pixel shader. -/
def samplePixelShader : Shader := ⟨.SHADER_PIXEL, none, none, some 33⟩

/-- A sample world in which every call succeeds: the window's client area is
`width × height`, the created device has feature level `level` and reports `quality`
multisample quality levels; the shader factory builds a vertex shader for the vertex type
and for the shader model `vs_5_0`, and a pixel shader otherwise. -/
def sampleWorld (width height : Int) (level : D3D_FEATURE_LEVEL) (quality : UINT) : World :=
  { GetClientRect := fun _ => ⟨0, 0, width, height⟩
    D3D11CreateDevice := ⟨S_OK, some 1, some level, some 2⟩
    CheckMultisampleQualityLevels := (S_OK, quality)
    newShaderFactory := 3
    newCommonStates := 4
    As_IDXGIDevice := some 5
    GetParent_IDXGIAdapter := (S_OK, some 6)
    GetParent_IDXGIFactory := (S_OK, some 7)
    CreateSwapChain := (S_OK, some 8)
    ResizeBuffers := S_OK
    GetBuffer := (S_OK, some 9)
    CreateRenderTargetView := some 10
    CreateTexture2D := (S_OK, some 11)
    CreateDepthStencilView := (S_OK, some 12)
    CreateTeapot := some ⟨[0, 1, 2], [0, 1, 2, 2, 1, 0]⟩
    CreateBuffer_vertex := some 13
    CreateBuffer_index := some 14
    BuildCompiledShader := fun _ t =>
      if t = .D3D11_SHVER_VERTEX_SHADER then some sampleVertexShader
      else some samplePixelShader
    BuildSourceShader := fun _ _ m =>
      if m = "vs_5_0" then some sampleVertexShader else some samplePixelShader
    CreateConstantBuffer := some 15
    CreateWICTextureFromFile := fun _ => (S_OK, some 16, some 17)
    Map := (S_OK, some 18)
    Present := S_OK }

/-- A sample state: initialised for a 800 × 600 window, mesh generated, both shaders
bound. -/
def sampleReady : GraphicsSystem :=
  { GraphicsSystem.constructor sampleDefaults with
    m_HWnd := 77
    m_Window_Width := 800
    m_Window_Height := 600
    m_4xMsaaQuality := 1
    m_device := some 1
    m_deviceContext := some 2
    m_swapChain := some 8
    m_renderTargetView := some 10
    m_depthStencilBuffer := some 11
    m_depthStencilView := some 12
    m_commonStates := some 4
    m_shaderFactory := some 3
    m_screenViewport := ⟨0, 0, 800, 600, 0, 1⟩
    m_pVertexShader := some sampleVertexShader
    m_pPixelShader := some samplePixelShader
    shader_worldBuffer := some 15
    shape := some ⟨[0, 1, 2], [0, 1, 2, 2, 1, 0]⟩
    shape_vertices := some 13
    shape_indices := some 14 }

/-- Whether a run returned. -/
def returned {α : Type} : Except Abort α → Bool
  | .ok _ => true
  | .error _ => false

/-- The state a run returned with, and `dflt` for a run that stopped. -/
def stateOf (r : Except Abort GraphicsSystem) (dflt : GraphicsSystem) : GraphicsSystem :=
  match r with
  | .ok g => g
  | .error _ => dflt

/-- The sample state left by `Init` in a debug build, on a fresh object and a window
whose client area is 800 × 600. -/
def sampleInitialized : GraphicsSystem :=
  stateOf (GraphicsSystem.Init true (sampleWorld 800 600 D3D_FEATURE_LEVEL_11_0 1) 77
    (GraphicsSystem.constructor sampleDefaults)) (GraphicsSystem.constructor sampleDefaults)

/-- The sample `Ready` state with the pixel shader slot empty. -/
def sampleNoPixelShader : GraphicsSystem :=
  { sampleReady with m_pPixelShader := none }

/-- Sample member defaults with 4x multisampling switched on. -/
def sampleDefaultsMsaa : MemberDefaults :=
  { sampleDefaults with m_enable4xMsaa := true }

/-- The texture descriptions passed to `CreateTexture2D`, oldest first. -/
def textureDescs (cs : List GpuCall) : List D3D11_TEXTURE2D_DESC :=
  cs.filterMap fun c =>
    match c with
    | .CreateTexture2D d => some d
    | _ => none

/-- The swap chain descriptions passed to `CreateSwapChain`, oldest first. -/
def swapChainDescs (cs : List GpuCall) : List DXGI_SWAP_CHAIN_DESC :=
  cs.filterMap fun c =>
    match c with
    | .CreateSwapChain _ sd => some sd
    | _ => none

/-- The constant buffers asked for, by debug name, oldest first. -/
def constantBuffers (cs : List GpuCall) : List String :=
  cs.filterMap fun c =>
    match c with
    | .CreateConstantBuffer _ name => some name
    | _ => none

/-- The sample `Ready` state with a stored window width of `2 ^ 24 + 1`. -/
def sampleWide : GraphicsSystem :=
  { sampleReady with m_Window_Width := 16777217 }

/-- The sample world after the device was removed: `Map` fails with
`DXGI_ERROR_DEVICE_REMOVED` (`0x887A0005`) and writes no data pointer. -/
def sampleWorldMapFails : World :=
  { sampleWorld 800 600 D3D_FEATURE_LEVEL_11_0 1 with Map := (-2005270523, none) }

/-- The sample session after `Init`: a texture load, a compiled vertex shader, a source
pixel shader and one frame. -/
def sampleSession : List (World × Op) :=
  [(sampleWorld 800 600 D3D_FEATURE_LEVEL_11_0 1, .LoadTexture "texture.png"),
   (sampleWorld 800 600 D3D_FEATURE_LEVEL_11_0 1,
     .LoadCompiledShader "vs.cso" .D3D11_SHVER_VERTEX_SHADER),
   (sampleWorld 800 600 D3D_FEATURE_LEVEL_11_0 1, .LoadSourceShader "ps.hlsl" "PS" "ps_5_0"),
   (sampleWorld 1024 768 D3D_FEATURE_LEVEL_11_0 1, .Update)]

/-- The state the sample session leaves, started on `sampleInitialized` in a debug
build. -/
def sampleAfterSession : GraphicsSystem :=
  stateOf (runAll true sampleSession sampleInitialized) sampleInitialized

/-- The state `Init` leaves in a release build on a fresh object when the created device
has feature level 10_1: the early exit. -/
def sampleEarlyExit : GraphicsSystem :=
  stateOf (GraphicsSystem.Init false (sampleWorld 800 600 D3D_FEATURE_LEVEL_10_1 1) 77
    (GraphicsSystem.constructor sampleDefaults)) (GraphicsSystem.constructor sampleDefaults)

/-! ## Lemmas on the embedding -/

open GraphicsSystem

theorem OnResize_returned {dbg : Bool} {w : World} {g g' : GraphicsSystem}
    (h : OnResize dbg w g = .ok g') :
    g'.m_device = g.m_device ∧ g'.m_deviceContext = g.m_deviceContext ∧
    g'.m_swapChain = g.m_swapChain ∧ g'.m_commonStates = g.m_commonStates ∧
    g'.m_Window_Width = g.m_Window_Width ∧ g'.m_Window_Height = g.m_Window_Height ∧
    g'.m_featureLevel = g.m_featureLevel ∧
    g'.m_screenViewport = screenViewport g ∧
    Initialized g ∧
    g'.calls = g.calls ++ [.OMSetRenderTargets 0 none none, .ClearState,
      .ResizeBuffers 1 g.m_Window_Width g.m_Window_Height .DXGI_FORMAT_R8G8B8A8_UNORM 0,
      .GetBuffer 0, .CreateRenderTargetView w.GetBuffer.2,
      .CreateTexture2D (depthStencilTextureDesc g),
      .CreateDepthStencilView w.CreateTexture2D.2,
      .OMSetDepthStencilState "DepthDefault" 1,
      .OMSetRenderTargets 1 w.CreateRenderTargetView w.CreateDepthStencilView.2,
      .RSSetState "CullNone",
      .RSSetViewports 1 (screenViewport g)] := by
  cases g
  rename_i dev ctx sc _ _ _ cs _ _ _ _ _ _ _ _ _ _ _
  cases dev <;> cases ctx <;> cases sc <;> cases cs <;> cases dbg <;>
    simp [OnResize, bind, Except.bind, pure, Except.pure, ASSERT_DEBUG, deref,
      GraphicsSystem.call, screenViewport, depthStencilTextureDesc, sampleDesc,
      Initialized] at h ⊢
  all_goals (repeat (split at h <;> try contradiction))
  all_goals (first | (injection h with h; subst h; simp [*]) | (subst h; simp [*]))

theorem OnResize_returns (dbg : Bool) {w : World} {g : GraphicsSystem}
    (hg : Initialized g) (hw : OnResizeSucceeds w) :
    ∃ g', OnResize dbg w g = .ok g' := by
  obtain ⟨h1, h2, h3, h4⟩ := hg
  obtain ⟨k1, k2, k3, k4⟩ := hw
  cases g
  rename_i dev ctx sc _ _ _ cs _ _ _ _ _ _ _ _ _ _ _
  cases dev <;> cases ctx <;> cases sc <;> cases cs <;> simp at h1 h2 h3 h4
  cases dbg <;>
    simp [OnResize, bind, Except.bind, pure, Except.pure, ASSERT_DEBUG, deref,
      GraphicsSystem.call, k1, k2, k3, k4]

theorem bind_ok_iff {ε α β : Type} (x : Except ε α) (f : α → Except ε β) (b : β) :
    (x >>= f) = .ok b ↔ ∃ a, x = .ok a ∧ f a = .ok b := by
  cases x <;> simp [bind, Except.bind]

theorem ASSERT_DEBUG_ok_iff (dbg : Bool) (g : GraphicsSystem) (c : Bool) (m : String)
    (u : Unit) : ASSERT_DEBUG dbg g c m = .ok u ↔ (dbg = true → c = true) := by
  unfold ASSERT_DEBUG
  cases dbg <;> cases c <;> simp

theorem deref_ok_iff {α : Type} (g : GraphicsSystem) (n : String) (p : Option α) (a : α) :
    deref g n p = .ok a ↔ p = some a := by
  cases p <;> simp [deref]

theorem pure_ok_iff {ε α : Type} (a b : α) : (pure a : Except ε α) = .ok b ↔ a = b := by
  simp [pure, Except.pure]

/-- What a returning `Init` leaves: the client size of the window as it was read, the
device and context the driver handed back, and either the early exit (release build only,
swap chain untouched) or a fully initialised object. -/
theorem Init_returned {dbg : Bool} {w : World} {hwnd : HWND} {g g' : GraphicsSystem}
    (h : Init dbg w hwnd g = .ok g') :
    g'.m_Window_Width =
      UINT.ofLONG ((w.GetClientRect hwnd).right - (w.GetClientRect hwnd).left) ∧
    g'.m_Window_Height =
      UINT.ofLONG ((w.GetClientRect hwnd).bottom - (w.GetClientRect hwnd).top) ∧
    g'.m_device = w.D3D11CreateDevice.device ∧
    g'.m_deviceContext = w.D3D11CreateDevice.immediateContext ∧
    ((dbg = false ∧ g'.m_featureLevel ≠ D3D_FEATURE_LEVEL_11_0 ∧
        g'.m_swapChain = g.m_swapChain) ∨
     (g'.m_featureLevel = D3D_FEATURE_LEVEL_11_0 ∧ Initialized g' ∧ g'.shape.isSome)) := by
  cases g
  simp only [Init, bind_ok_iff, ASSERT_DEBUG_ok_iff, deref_ok_iff, exists_const,
    GraphicsSystem.call] at h
  obtain ⟨-, h⟩ := h
  split at h
  · simp only [bind_ok_iff, ASSERT_DEBUG_ok_iff, pure_ok_iff, exists_const] at h
    obtain ⟨hd, rfl⟩ := h
    simp_all
  · simp only [bind_ok_iff, ASSERT_DEBUG_ok_iff, deref_ok_iff, pure_ok_iff,
      exists_const] at h
    obtain ⟨d, hd, -, -, _, -, -, _, -, -, _, -, -, v, hR, s1, hs1, -, -, rfl⟩ := h
    have hr := OnResize_returned hR
    simp only [Initialized] at hr ⊢
    obtain ⟨e1, e2, e3, e4, e5, e6, e7, -, ⟨i1, i2, i3, i4⟩, -⟩ := hr
    simp_all

theorem SetShader_returned {g g' : GraphicsSystem} {shader : Option Shader}
    (h : _SetShader g shader = .ok g') :
    g'.m_device = g.m_device ∧ g'.m_deviceContext = g.m_deviceContext ∧
    g'.m_swapChain = g.m_swapChain ∧ g'.shader_worldBuffer = g.shader_worldBuffer ∧
    g'.calls = g.calls := by
  simp only [_SetShader, bind_ok_iff, deref_ok_iff] at h
  obtain ⟨s, -, h⟩ := h
  split at h <;> simp only [pure_ok_iff] at h <;> subst h <;> simp

theorem LoadCompiledShader_returned {w : World} {f : String}
    {t : D3D11_SHADER_VERSION_TYPE} {g g' : GraphicsSystem}
    (h : LoadCompiledShader w f t g = .ok g') :
    g'.m_device = g.m_device ∧ g'.m_deviceContext = g.m_deviceContext ∧
    g'.m_swapChain = g.m_swapChain := by
  simp only [LoadCompiledShader, bind_ok_iff, deref_ok_iff] at h
  obtain ⟨_, -, v, hv, h⟩ := h
  have hs := SetShader_returned hv
  split at h <;> simp only [pure_ok_iff, GraphicsSystem.call] at h <;> subst h <;>
    simp [hs]

/-- The source path binds the shader and does nothing else: no call is issued and the
transform constant buffer is left as it was. -/
theorem LoadSourceShader_returned {w : World} {f e m : String} {g g' : GraphicsSystem}
    (h : LoadSourceShader w f e m g = .ok g') :
    g'.m_device = g.m_device ∧ g'.m_deviceContext = g.m_deviceContext ∧
    g'.m_swapChain = g.m_swapChain ∧ g'.shader_worldBuffer = g.shader_worldBuffer ∧
    g'.calls = g.calls := by
  simp only [LoadSourceShader, bind_ok_iff, deref_ok_iff] at h
  obtain ⟨_, -, h⟩ := h
  exact SetShader_returned h

theorem LoadTexture_returned {dbg : Bool} {w : World} {f : String} {g g' : GraphicsSystem}
    (h : LoadTexture dbg w f g = .ok g') :
    g'.m_device = g.m_device ∧ g'.m_deviceContext = g.m_deviceContext ∧
    g'.m_swapChain = g.m_swapChain := by
  simp only [LoadTexture, bind_ok_iff, ASSERT_DEBUG_ok_iff, pure_ok_iff, exists_const,
    GraphicsSystem.call] at h
  obtain ⟨-, rfl⟩ := h
  simp

theorem Update_returned {dbg : Bool} {w : World} {g g' : GraphicsSystem}
    (h : Update dbg w g = .ok g') :
    g'.m_device = g.m_device ∧ g'.m_deviceContext = g.m_deviceContext ∧
    g'.m_swapChain = g.m_swapChain := by
  cases g
  simp only [Update, ClearRenderTarget, SwapBuffers, bind_ok_iff, ASSERT_DEBUG_ok_iff,
    deref_ok_iff, pure_ok_iff, exists_const, GraphicsSystem.call] at h
  obtain ⟨-, -, -, -, _, -, _, -, _, -, _, -, _, -, v, ⟨_, -, rfl⟩, _, -, _, -, -, rfl⟩ := h
  simp

/-- The conversion to `float` keeps every integer up to `2 ^ 24`. -/
theorem static_cast_float_exact (n : UINT) (h : n ≤ 2 ^ 24) :
    static_cast_float n = (n : Int) := by
  rcases Nat.lt_or_eq_of_le h with h | h
  · rw [static_cast_float, if_pos h]
  · subst h; decide

/-- A `LONG` that is a natural number below `2 ^ 32` converts to that `UINT`. -/
theorem UINT.ofLONG_natCast (n : Nat) (h : n < 2 ^ 32) : UINT.ofLONG (n : Int) = n := by
  unfold UINT.ofLONG
  have h1 : ((n : Int) % 2 ^ 32) = (n : Int) := by
    apply Int.emod_eq_of_lt
    · exact Int.natCast_nonneg n
    · exact_mod_cast h
  rw [h1]
  simp

/-- Every public operation other than `Init` leaves the stored window size as it was. -/
theorem run_keeps_window {dbg : Bool} {w : World} {op : Op} {g g' : GraphicsSystem}
    (h : op.run dbg w g = .ok g') (hInit : op.isInit = false) :
    g'.m_Window_Width = g.m_Window_Width ∧ g'.m_Window_Height = g.m_Window_Height := by
  cases op with
  | Init _ => simp [Op.isInit] at hInit
  | OnResize =>
    obtain ⟨-, -, -, -, a, b, -⟩ := OnResize_returned h
    exact ⟨a, b⟩
  | LoadCompiledShader f t =>
    replace h : GraphicsSystem.LoadCompiledShader w f t g = .ok g' := h
    simp only [LoadCompiledShader, _SetShader, bind_ok_iff, deref_ok_iff] at h
    obtain ⟨_, -, v, ⟨s, -, hv⟩, h⟩ := h
    have hv' : v.m_Window_Width = g.m_Window_Width ∧
        v.m_Window_Height = g.m_Window_Height := by
      split at hv <;> simp only [pure_ok_iff] at hv <;> subst hv <;> simp
    split at h <;> simp only [pure_ok_iff, GraphicsSystem.call] at h <;> subst h <;>
      simpa using hv'
  | LoadSourceShader f e m =>
    replace h : GraphicsSystem.LoadSourceShader w f e m g = .ok g' := h
    simp only [LoadSourceShader, _SetShader, bind_ok_iff, deref_ok_iff] at h
    obtain ⟨_, -, s, -, h⟩ := h
    split at h <;> simp only [pure_ok_iff] at h <;> subst h <;> simp
  | LoadTexture f =>
    replace h : GraphicsSystem.LoadTexture dbg w f g = .ok g' := h
    simp only [LoadTexture, bind_ok_iff, ASSERT_DEBUG_ok_iff, pure_ok_iff,
      exists_const, GraphicsSystem.call] at h
    obtain ⟨-, rfl⟩ := h
    simp
  | Update =>
    replace h : GraphicsSystem.Update dbg w g = .ok g' := h
    cases g
    simp only [Update, ClearRenderTarget, SwapBuffers, bind_ok_iff,
      ASSERT_DEBUG_ok_iff, deref_ok_iff, pure_ok_iff, exists_const,
      GraphicsSystem.call] at h
    obtain ⟨-, -, -, -, _, -, _, -, _, -, _, -, _, -, v, ⟨_, -, rfl⟩, _, -, _, -, -, rfl⟩ := h
    simp
  | DeInit =>
    replace h : Except.ok (GraphicsSystem.DeInit g) = Except.ok g' := h
    simp only [Except.ok.injEq] at h
    subst h
    cases g
    rename_i ctx _ _ _ _ _ sf _ _ _ _ _ _ _ _ _ _
    cases ctx <;> cases sf <;> simp [GraphicsSystem.DeInit, GraphicsSystem.call]

/-- Along a session without `Init` the stored window size stays as it was. -/
theorem runAll_window {dbg : Bool} (ops : List (World × Op)) (g0 g : GraphicsSystem)
    (hno : ops.all (fun p => !p.2.isInit) = true) (hrun : runAll dbg ops g0 = .ok g) :
    g.m_Window_Width = g0.m_Window_Width ∧ g.m_Window_Height = g0.m_Window_Height := by
  induction ops generalizing g0 with
  | nil =>
    simp only [runAll, Except.ok.injEq] at hrun
    subst hrun
    exact ⟨rfl, rfl⟩
  | cons p rest ih =>
    obtain ⟨w, op⟩ := p
    simp only [List.all_cons, Bool.and_eq_true, Bool.not_eq_true'] at hno
    obtain ⟨hop, hrest⟩ := hno
    simp only [runAll] at hrun
    cases h1 : op.run dbg w g0 with
    | error a => rw [h1] at hrun; simp at hrun
    | ok g1 =>
      rw [h1] at hrun
      obtain ⟨a, b⟩ := ih g1 hrest hrun
      obtain ⟨c, d⟩ := run_keeps_window h1 hop
      exact ⟨a.trans c, b.trans d⟩

/-- Every public operation other than `Init` and `DeInit` leaves device, context and swap
chain as they were. -/
theorem Op.run_frame {dbg : Bool} {w : World} {op : Op} {g g' : GraphicsSystem}
    (h : op.run dbg w g = .ok g') (hInit : op.isInit = false) (hDeInit : op ≠ .DeInit) :
    g'.m_device = g.m_device ∧ g'.m_deviceContext = g.m_deviceContext ∧
    g'.m_swapChain = g.m_swapChain := by
  cases op with
  | Init _ => simp [Op.isInit] at hInit
  | OnResize =>
    obtain ⟨a, b, c, -⟩ := OnResize_returned h
    exact ⟨a, b, c⟩
  | LoadCompiledShader f t => exact LoadCompiledShader_returned h
  | LoadSourceShader f e m =>
    obtain ⟨a, b, c, -⟩ := LoadSourceShader_returned h
    exact ⟨a, b, c⟩
  | LoadTexture f => exact LoadTexture_returned h
  | Update => exact Update_returned h
  | DeInit => exact absurd rfl hDeInit

/-! ## Shader routing -/

/-- C1: `_SetShader` routes a shader by its tag. Given a shader tagged vertex, the result
is the state with the vertex-shader slot referring to it and every other member, the
pixel-shader slot included, unchanged; given a shader tagged pixel, the same with the two
slots exchanged. A second `_SetShader` with a shader of the same tag leaves exactly what
it would have left alone: it replaces the shader the first one stored. -/
theorem SetShader_routes_by_tag (g : GraphicsSystem) (s s' : Shader) :
    (s.GetShaderType = .SHADER_VERTEX →
      _SetShader g (some s) = .ok { g with m_pVertexShader := some s }) ∧
    (s.GetShaderType = .SHADER_PIXEL →
      _SetShader g (some s) = .ok { g with m_pPixelShader := some s }) ∧
    (s'.GetShaderType = s.GetShaderType →
      (_SetShader g (some s) >>= fun g1 => _SetShader g1 (some s')) =
        _SetShader g (some s')) := by
  refine ⟨?_, ?_, ?_⟩
  · intro h
    simp [_SetShader, deref, bind, Except.bind, pure, Except.pure, h]
  · intro h
    simp [_SetShader, deref, bind, Except.bind, pure, Except.pure, h]
  · intro h
    cases hs : s.GetShaderType <;> rw [hs] at h <;>
      simp [_SetShader, deref, bind, Except.bind, pure, Except.pure, h, hs]

theorem SetShader_routes_by_tag_witness :
    _SetShader sampleNoPixelShader (some samplePixelShader) = .ok sampleReady :=
  (SetShader_routes_by_tag sampleNoPixelShader samplePixelShader samplePixelShader).2.1 rfl

/-! ## Teardown -/

/-- C7: from every state, initialised or not, `DeInit` leaves the device handle null, and
the destructor run after it passes its assertion, in a debug and in a release build. -/
theorem DeInit_then_destructor_passes (dbg : Bool) (g : GraphicsSystem) :
    (DeInit g).m_device = none ∧ destructor dbg (DeInit g) = .ok () := by
  have h : (DeInit g).m_device = none := by
    cases g
    rename_i ctx _ _ _ _ _ sf _ _ _ _ _ _ _ _ _ _
    cases ctx <;> cases sf <;> rfl
  refine ⟨h, ?_⟩
  cases dbg <;> simp [destructor, ASSERT_DEBUG, h]

/-! ## Resize -/

/-- C2, as the spec states it, fails: on the initialised sample state with a stored window
size of 16777217 × 600, `OnResize` returns with a viewport width of 16777216, the
binary32 value nearest to 16777217; the back buffer and the depth-stencil texture are
asked for with width 16777217. -/
theorem OnResize_viewport_rounds_wide_window :
    Initialized sampleWide ∧
    sampleWide.m_Window_Width = 16777217 ∧ sampleWide.m_Window_Height = 600 ∧
    returned (OnResize true (sampleWorld 800 600 D3D_FEATURE_LEVEL_11_0 1) sampleWide) =
      true ∧
    (stateOf (OnResize true (sampleWorld 800 600 D3D_FEATURE_LEVEL_11_0 1) sampleWide)
      sampleWide).m_screenViewport = ⟨0, 0, 16777216, 600, 0, 1⟩ ∧
    ((textureDescs (issued (OnResize true (sampleWorld 800 600 D3D_FEATURE_LEVEL_11_0 1)
      sampleWide))).map fun d => (d.Width, d.Height)) = [(16777217, 600)] ∧
    (stateOf (OnResize true (sampleWorld 800 600 D3D_FEATURE_LEVEL_11_0 1) sampleWide)
      sampleWide).m_screenViewport.Width ≠ ((16777217 : UINT) : Int) := by
  refine ⟨by decide, rfl, rfl, ?_, ?_, ?_, ?_⟩ <;> decide

/-- C2, amended: on an initialised object whose stored window size is `W × H`, with `W`
and `H` positive and at most `2 ^ 24`, `OnResize` returns when the driver's checked calls
succeed, and whenever it returns the viewport is `(0, 0, W, H)` with depth range
`0 .. 1`, the depth-stencil texture was described with width `W` and height `H`, and the
swap chain was asked, once, to resize its one back buffer to `W × H`. -/
theorem OnResize_sizes_from_stored_window (dbg : Bool) (w : World) (g : GraphicsSystem)
    (W H : UINT) (hinit : Initialized g) (hW : g.m_Window_Width = W)
    (hH : g.m_Window_Height = H) (_hWpos : 0 < W) (_hHpos : 0 < H)
    (hWmax : W ≤ 2 ^ 24) (hHmax : H ≤ 2 ^ 24) :
    (OnResizeSucceeds w → returned (OnResize dbg w g) = true) ∧
    ∀ g', OnResize dbg w g = .ok g' →
      g'.m_screenViewport =
        { TopLeftX := 0, TopLeftY := 0, Width := W, Height := H,
          MinDepth := 0, MaxDepth := 1 } ∧
      (depthStencilTextureDesc g).Width = W ∧ (depthStencilTextureDesc g).Height = H ∧
      g'.calls = g.calls ++ [.OMSetRenderTargets 0 none none, .ClearState,
        .ResizeBuffers 1 W H .DXGI_FORMAT_R8G8B8A8_UNORM 0,
        .GetBuffer 0, .CreateRenderTargetView w.GetBuffer.2,
        .CreateTexture2D (depthStencilTextureDesc g),
        .CreateDepthStencilView w.CreateTexture2D.2,
        .OMSetDepthStencilState "DepthDefault" 1,
        .OMSetRenderTargets 1 w.CreateRenderTargetView w.CreateDepthStencilView.2,
        .RSSetState "CullNone",
        .RSSetViewports 1
          { TopLeftX := 0, TopLeftY := 0, Width := W, Height := H,
            MinDepth := 0, MaxDepth := 1 }] := by
  have hvp : screenViewport g =
      { TopLeftX := 0, TopLeftY := 0, Width := W, Height := H,
        MinDepth := 0, MaxDepth := 1 } := by
    simp [screenViewport, hW, hH, static_cast_float_exact W hWmax,
      static_cast_float_exact H hHmax]
  constructor
  · intro hw
    obtain ⟨g', hg'⟩ := OnResize_returns dbg hinit hw
    rw [hg']
    rfl
  · intro g' hg'
    obtain ⟨-, -, -, -, -, -, -, hv, -, hc⟩ := OnResize_returned hg'
    refine ⟨?_, ?_, ?_, ?_⟩
    · rw [hv, hvp]
    · simp [depthStencilTextureDesc, hW]
    · simp [depthStencilTextureDesc, hH]
    · rw [hc, hvp, hW, hH]

theorem OnResize_sizes_from_stored_window_witness :
    returned (OnResize true (sampleWorld 1024 768 D3D_FEATURE_LEVEL_11_0 1) sampleReady) =
      true :=
  (OnResize_sizes_from_stored_window true (sampleWorld 1024 768 D3D_FEATURE_LEVEL_11_0 1)
    sampleReady 800 600 (by decide) rfl rfl (by decide) (by decide) (by decide)
    (by decide)).1 (by decide)

/-- C3, as the spec states it, fails: `Init` runs in a debug build on a window whose
client area is 800 × 600; the client area then is 1024 × 768; `OnResize` returns with a
viewport of 800 × 600, and the one depth-stencil texture it describes is 800 × 600, not
1024 × 768. -/
theorem OnResize_keeps_size_of_Init :
    Init true (sampleWorld 800 600 D3D_FEATURE_LEVEL_11_0 1) 77
        (constructor sampleDefaults) = .ok sampleInitialized ∧
    (sampleWorld 1024 768 D3D_FEATURE_LEVEL_11_0 1).GetClientRect 77 = ⟨0, 0, 1024, 768⟩ ∧
    returned (OnResize true (sampleWorld 1024 768 D3D_FEATURE_LEVEL_11_0 1)
        sampleInitialized) = true ∧
    (stateOf (OnResize true (sampleWorld 1024 768 D3D_FEATURE_LEVEL_11_0 1)
        sampleInitialized) sampleInitialized).m_screenViewport = ⟨0, 0, 800, 600, 0, 1⟩ ∧
    ((textureDescs ((issued (OnResize true (sampleWorld 1024 768 D3D_FEATURE_LEVEL_11_0 1)
        sampleInitialized)).drop sampleInitialized.calls.length)).map
        fun d => (d.Width, d.Height)) = [(800, 600)] ∧
    (stateOf (OnResize true (sampleWorld 1024 768 D3D_FEATURE_LEVEL_11_0 1)
        sampleInitialized) sampleInitialized).m_screenViewport ≠
      ⟨0, 0, 1024, 768, 0, 1⟩ := by
  refine ⟨rfl, rfl, ?_, ?_, ?_, ?_⟩ <;> decide

/-- C3, amended: `OnResize` sizes the viewport, the depth-stencil texture and the back
buffer from the size stored in the object, and of the public operations only `Init`
stores one. In every session in which `Init` ran on a window whose client area was
`W × H` (each at most `2 ^ 24`) and was followed by any public operations other than
`Init`, run in any worlds, `OnResize` run in a world `wB`, whatever the client area is
there, issues exactly the listed calls, with a back buffer and a depth-stencil texture of
`W × H`, and leaves the viewport `(0, 0, W, H)`; it returns when the object is still
initialised and the driver's checked calls succeed. -/
theorem OnResize_in_session_uses_size_of_Init (dbg : Bool) (wA wB : World) (hwnd : HWND)
    (g0 g1 g2 : GraphicsSystem) (ops : List (World × Op)) (W H : UINT)
    (hInit : Init dbg wA hwnd g0 = .ok g1)
    (hops : ops.all (fun p => !p.2.isInit) = true)
    (hrun : runAll dbg ops g1 = .ok g2)
    (hAw : (wA.GetClientRect hwnd).right - (wA.GetClientRect hwnd).left = (W : Int))
    (hAh : (wA.GetClientRect hwnd).bottom - (wA.GetClientRect hwnd).top = (H : Int))
    (hWmax : W ≤ 2 ^ 24) (hHmax : H ≤ 2 ^ 24) :
    (Initialized g2 → OnResizeSucceeds wB → returned (OnResize dbg wB g2) = true) ∧
    ∀ g3, OnResize dbg wB g2 = .ok g3 →
      g3.m_screenViewport =
        { TopLeftX := 0, TopLeftY := 0, Width := W, Height := H,
          MinDepth := 0, MaxDepth := 1 } ∧
      (depthStencilTextureDesc g2).Width = W ∧ (depthStencilTextureDesc g2).Height = H ∧
      g3.calls = g2.calls ++ [.OMSetRenderTargets 0 none none, .ClearState,
        .ResizeBuffers 1 W H .DXGI_FORMAT_R8G8B8A8_UNORM 0,
        .GetBuffer 0, .CreateRenderTargetView wB.GetBuffer.2,
        .CreateTexture2D (depthStencilTextureDesc g2),
        .CreateDepthStencilView wB.CreateTexture2D.2,
        .OMSetDepthStencilState "DepthDefault" 1,
        .OMSetRenderTargets 1 wB.CreateRenderTargetView wB.CreateDepthStencilView.2,
        .RSSetState "CullNone",
        .RSSetViewports 1
          { TopLeftX := 0, TopLeftY := 0, Width := W, Height := H,
            MinDepth := 0, MaxDepth := 1 }] := by
  obtain ⟨hW1, hH1, -⟩ := Init_returned hInit
  obtain ⟨hW2, hH2⟩ := runAll_window ops g1 g2 hops hrun
  have hWlt : W < 2 ^ 32 := lt_of_le_of_lt hWmax (by norm_num)
  have hHlt : H < 2 ^ 32 := lt_of_le_of_lt hHmax (by norm_num)
  have hW : g2.m_Window_Width = W := by
    rw [hW2, hW1, hAw, UINT.ofLONG_natCast W hWlt]
  have hH : g2.m_Window_Height = H := by
    rw [hH2, hH1, hAh, UINT.ofLONG_natCast H hHlt]
  have hvp : screenViewport g2 =
      { TopLeftX := 0, TopLeftY := 0, Width := W, Height := H,
        MinDepth := 0, MaxDepth := 1 } := by
    simp [screenViewport, hW, hH, static_cast_float_exact W hWmax,
      static_cast_float_exact H hHmax]
  constructor
  · intro hinit hw
    obtain ⟨g3, hg3⟩ := OnResize_returns dbg hinit hw
    rw [hg3]
    rfl
  · intro g3 hg3
    obtain ⟨-, -, -, -, -, -, -, hv, -, hc⟩ := OnResize_returned hg3
    refine ⟨?_, ?_, ?_, ?_⟩
    · rw [hv, hvp]
    · simp [depthStencilTextureDesc, hW]
    · simp [depthStencilTextureDesc, hH]
    · rw [hc, hvp, hW, hH]

theorem OnResize_in_session_uses_size_of_Init_witness :
    returned (OnResize true (sampleWorld 1024 768 D3D_FEATURE_LEVEL_11_0 1)
      sampleAfterSession) = true :=
  (OnResize_in_session_uses_size_of_Init true (sampleWorld 800 600 D3D_FEATURE_LEVEL_11_0 1)
    (sampleWorld 1024 768 D3D_FEATURE_LEVEL_11_0 1) 77 (constructor sampleDefaults)
    sampleInitialized sampleAfterSession sampleSession 800 600 rfl (by decide)
    rfl (by decide) (by decide) (by decide) (by decide)).1 (by decide) (by decide)

/-! ## The frame -/

/-- C6, as the spec states it, fails: in the sample `Ready` state, when `Map` fails (the
device was removed) and writes no data pointer, `Update` in a debug build issues the `Map`
call alone and stops at the copy through the null `resource.pData`: no draw, no
`Present`. -/
theorem Update_stops_when_Map_fails :
    Ready sampleReady ∧
    sampleWorldMapFails.Map = (-2005270523, none) ∧
    faultOf (Update true sampleWorldMapFails sampleReady) =
      some (.nullDereference "resource.pData") ∧
    issued (Update true sampleWorldMapFails sampleReady) = [.Map (some 15)] := by
  refine ⟨by decide, rfl, ?_, ?_⟩ <;> decide

/-- C6, amended: in a `Ready` state, with `Map` handing back the mapped memory, one `Update` issues
exactly the sixteen calls listed: the upload and the bindings, then the clear of the
render target and the clear of the depth-stencil view, then one `DrawIndexed` whose index
count is the number of indices of the mesh, from index 0 and base vertex 0, then one
`Present` whose sync interval is 1 with vsync enabled and 0 otherwise. `Update` returns
unless a debug build sees `Present` fail. -/
theorem Update_draws_once_then_presents (dbg : Bool) (w : World) (g : GraphicsSystem)
    (vs ps : Shader) (mesh : Shape) (hready : Ready g)
    (hvs : g.m_pVertexShader = some vs) (hps : g.m_pPixelShader = some ps)
    (hmesh : g.shape = some mesh) (hmap : w.Map.2.isSome = true) :
    issued (Update dbg w g) = g.calls ++
      [.Map g.shader_worldBuffer, .Unmap g.shader_worldBuffer,
       .IASetInputLayout vs.m_inputLayout,
       .IASetVertexBuffers 0 1 g.shape_vertices,
       .IASetIndexBuffer g.shape_indices .DXGI_FORMAT_R32_UINT 0,
       .IASetPrimitiveTopology "D3D_PRIMITIVE_TOPOLOGY_TRIANGLELIST",
       .VSSetShader vs.m_vertexShader,
       .VSSetConstantBuffers 0 1 g.shader_worldBuffer,
       .PSSetShader ps.m_pixelShader,
       .PSSetShaderResources 0 1 g.m_textureView,
       .PSSetSamplers 0 1 "AnisotropicWrap",
       .OMSetBlendState "Opaque" 0xffffffff,
       .ClearRenderTargetView g.m_renderTargetView,
       .ClearDepthStencilView g.m_depthStencilView
         "D3D11_CLEAR_DEPTH | D3D11_CLEAR_STENCIL" 1 0,
       .DrawIndexed mesh.m_Indices.length 0 0,
       .Present (if g.m_vsync_enabled then 1 else 0) 0] ∧
    ((dbg = true → SUCCEEDED w.Present = true) → returned (Update dbg w g) = true) := by
  obtain ⟨⟨-, hctx, hsc, hcs⟩, -, -, -⟩ := hready
  obtain ⟨md, hmd⟩ := Option.isSome_iff_exists.mp hmap
  cases g
  rename_i dev ctx sc _ _ _ cs _ _ _ _ _ _ _ _ _ _ _
  cases ctx <;> cases sc <;> cases cs <;> simp at hctx hsc hcs hvs hps hmesh
  subst hvs hps hmesh
  cases dbg <;> cases hp : SUCCEEDED w.Present <;>
    simp [Update, ClearRenderTarget, SwapBuffers, issued, returned, bind, Except.bind, pure,
      Except.pure, ASSERT_DEBUG, deref, GraphicsSystem.call, hmd, hp]

theorem Update_draws_once_then_presents_witness :
    issued (Update true (sampleWorld 800 600 D3D_FEATURE_LEVEL_11_0 1) sampleReady) =
      sampleReady.calls ++
      [.Map sampleReady.shader_worldBuffer, .Unmap sampleReady.shader_worldBuffer,
       .IASetInputLayout sampleVertexShader.m_inputLayout,
       .IASetVertexBuffers 0 1 sampleReady.shape_vertices,
       .IASetIndexBuffer sampleReady.shape_indices .DXGI_FORMAT_R32_UINT 0,
       .IASetPrimitiveTopology "D3D_PRIMITIVE_TOPOLOGY_TRIANGLELIST",
       .VSSetShader sampleVertexShader.m_vertexShader,
       .VSSetConstantBuffers 0 1 sampleReady.shader_worldBuffer,
       .PSSetShader samplePixelShader.m_pixelShader,
       .PSSetShaderResources 0 1 sampleReady.m_textureView,
       .PSSetSamplers 0 1 "AnisotropicWrap",
       .OMSetBlendState "Opaque" 0xffffffff,
       .ClearRenderTargetView sampleReady.m_renderTargetView,
       .ClearDepthStencilView sampleReady.m_depthStencilView
         "D3D11_CLEAR_DEPTH | D3D11_CLEAR_STENCIL" 1 0,
       .DrawIndexed (Shape.mk [0, 1, 2] [0, 1, 2, 2, 1, 0]).m_Indices.length 0 0,
       .Present (if sampleReady.m_vsync_enabled then 1 else 0) 0] :=
  (Update_draws_once_then_presents true (sampleWorld 800 600 D3D_FEATURE_LEVEL_11_0 1)
    sampleReady sampleVertexShader samplePixelShader ⟨[0, 1, 2], [0, 1, 2, 2, 1, 0]⟩
    (by decide) rfl rfl rfl rfl).1

/-- The three precondition assertions of `Update` that test what their message names do
fire in a debug build, before any call is issued: a null device context, a null swap chain
and a null vertex shader each stop `Update` at an assertion with the calls as they were. -/
theorem Update_asserts_context_swapChain_vertexShader (w : World) (g : GraphicsSystem)
    (h : g.m_deviceContext = none ∨ g.m_swapChain = none ∨ g.m_pVertexShader = none) :
    ∃ message, Update true w g = .error ⟨.assertion message, g.calls⟩ := by
  cases g
  rename_i ctx sc _ _ _ _ _ _ vs _ _ _ _ _ _ _ _
  cases ctx <;> cases sc <;> cases vs <;>
    simp [Update, bind, Except.bind, ASSERT_DEBUG] at h ⊢

/-- C4, the input on which `Update` misses its precondition: device context, swap chain
and vertex shader present, pixel shader null, debug build. No assertion fires: the fourth
assertion tests the vertex shader again. `Update` maps the constant buffer, binds the
input assembler and the vertex shader, and stops at the dereference of the null pixel
shader. -/
theorem Update_null_pixel_shader_passes_assertions :
    sampleNoPixelShader.m_deviceContext = some 2 ∧
    sampleNoPixelShader.m_swapChain = some 8 ∧
    sampleNoPixelShader.m_pVertexShader = some sampleVertexShader ∧
    sampleNoPixelShader.m_pPixelShader = none ∧
    faultOf (Update true (sampleWorld 800 600 D3D_FEATURE_LEVEL_11_0 1)
      sampleNoPixelShader) = some (.nullDereference "m_pPixelShader") ∧
    issued (Update true (sampleWorld 800 600 D3D_FEATURE_LEVEL_11_0 1)
      sampleNoPixelShader) =
      [.Map (some 15), .Unmap (some 15), .IASetInputLayout (some 31),
       .IASetVertexBuffers 0 1 (some 13),
       .IASetIndexBuffer (some 14) .DXGI_FORMAT_R32_UINT 0,
       .IASetPrimitiveTopology "D3D_PRIMITIVE_TOPOLOGY_TRIANGLELIST",
       .VSSetShader (some 32), .VSSetConstantBuffers 0 1 (some 15)] := by
  refine ⟨rfl, rfl, rfl, rfl, rfl, rfl⟩

/-! ## Shader loading -/

/-- The compiled path does allocate the transform constant buffer: a returning
`LoadCompiledShader` of the vertex shader type issues one `CreateConstantBuffer` after the
calls made so far and stores what it yields in `shader_worldBuffer`. -/
theorem LoadCompiledShader_vertex_creates_constant_buffer (w : World) (f : String)
    (g g' : GraphicsSystem)
    (h : LoadCompiledShader w f .D3D11_SHVER_VERTEX_SHADER g = .ok g') :
    g'.shader_worldBuffer = w.CreateConstantBuffer ∧
    g'.calls = g.calls ++ [.CreateConstantBuffer g.m_device "WorldCbuffer"] := by
  simp only [LoadCompiledShader, bind_ok_iff, deref_ok_iff] at h
  obtain ⟨_, -, v, hv, h⟩ := h
  obtain ⟨hd, -, -, -, hc⟩ := SetShader_returned hv
  simp only [if_true, pure_ok_iff, GraphicsSystem.call] at h
  subst h
  simp [hd, hc]

/-- C5, the input on which the source path misses the constant buffer: after `Init`,
`LoadSourceShader` of a vertex shader returns with the vertex shader bound, issues no
`CreateConstantBuffer` and leaves `shader_worldBuffer` null, where `LoadCompiledShader`
of the same shader issues one and leaves the buffer set. -/
theorem LoadSourceShader_vertex_leaves_constant_buffer_null :
    sampleInitialized.shader_worldBuffer = none ∧
    returned (LoadSourceShader (sampleWorld 800 600 D3D_FEATURE_LEVEL_11_0 1)
      "shader.hlsl" "VS" "vs_5_0" sampleInitialized) = true ∧
    (stateOf (LoadSourceShader (sampleWorld 800 600 D3D_FEATURE_LEVEL_11_0 1)
      "shader.hlsl" "VS" "vs_5_0" sampleInitialized) sampleInitialized).m_pVertexShader =
        some sampleVertexShader ∧
    (stateOf (LoadSourceShader (sampleWorld 800 600 D3D_FEATURE_LEVEL_11_0 1)
      "shader.hlsl" "VS" "vs_5_0" sampleInitialized) sampleInitialized).shader_worldBuffer =
        none ∧
    constantBuffers (issued (LoadSourceShader (sampleWorld 800 600 D3D_FEATURE_LEVEL_11_0 1)
      "shader.hlsl" "VS" "vs_5_0" sampleInitialized)) = [] ∧
    (stateOf (LoadCompiledShader (sampleWorld 800 600 D3D_FEATURE_LEVEL_11_0 1)
      "shader.cso" .D3D11_SHVER_VERTEX_SHADER sampleInitialized)
      sampleInitialized).shader_worldBuffer = some 15 ∧
    constantBuffers (issued (LoadCompiledShader (sampleWorld 800 600 D3D_FEATURE_LEVEL_11_0 1)
      "shader.cso" .D3D11_SHVER_VERTEX_SHADER sampleInitialized)) = ["WorldCbuffer"] := by
  refine ⟨rfl, rfl, rfl, rfl, rfl, rfl, rfl⟩

/-! ## Multisampling -/

/-- With multisampling switched off the sample description is count 1, quality 0,
whatever the device reports. -/
theorem sampleDesc_msaa_off (g : GraphicsSystem) (h : g.m_enable4xMsaa = false) :
    sampleDesc g = { Count := 1, Quality := 0 } := by
  simp [sampleDesc, h]

/-- C10, the input on which multisampling does not degrade: 4x multisampling enabled and
a device that reports 0 quality levels. `Init` describes the swap chain, and `OnResize`
the depth-stencil texture, with sample count 4 and quality `0 - 1` taken in `UINT`, that
is `2 ^ 32 - 1 = 4294967295`. -/
theorem sampleDesc_quality_wraps_when_unsupported :
    (constructor sampleDefaultsMsaa).m_enable4xMsaa = true ∧
    (sampleWorld 800 600 D3D_FEATURE_LEVEL_11_0 0).CheckMultisampleQualityLevels =
      (S_OK, 0) ∧
    ((swapChainDescs (issued (Init true (sampleWorld 800 600 D3D_FEATURE_LEVEL_11_0 0) 77
      (constructor sampleDefaultsMsaa)))).map fun d => d.SampleDesc) =
        [{ Count := 4, Quality := 4294967295 }] ∧
    ((textureDescs (issued (Init true (sampleWorld 800 600 D3D_FEATURE_LEVEL_11_0 0) 77
      (constructor sampleDefaultsMsaa)))).map fun d => d.SampleDesc) =
        [{ Count := 4, Quality := 4294967295 }] ∧
    (4294967295 : UINT) = 2 ^ 32 - 1 := by
  refine ⟨rfl, rfl, ?_, ?_, ?_⟩
  · decide
  · decide
  · decide

/-! ## The destructor's assertion -/

/-- In a debug build a returning `Init` leaves the device handle set: the early exit
stops at its assertion, and the rest of `Init` dereferences the device. -/
theorem Init_debug_device {w : World} {hwnd : HWND} {g g' : GraphicsSystem}
    (h : Init true w hwnd g = .ok g') : g'.m_device.isSome = true := by
  obtain ⟨-, -, -, -, hcase⟩ := Init_returned h
  rcases hcase with ⟨hf, -⟩ | ⟨-, ⟨hd, -⟩, -⟩
  · simp at hf
  · exact hd

/-- Along a debug session without `DeInit`, the device handle is set at the end exactly
when it was set at the start or an `Init` has returned. -/
theorem runAll_device (ops : List (World × Op)) (g0 g : GraphicsSystem)
    (hno : ops.all (fun p => decide (p.2 ≠ Op.DeInit)) = true)
    (hrun : runAll true ops g0 = .ok g) :
    g.m_device.isSome = (g0.m_device.isSome || ops.any fun p => p.2.isInit) := by
  induction ops generalizing g0 with
  | nil =>
    simp only [runAll, Except.ok.injEq] at hrun
    subst hrun
    simp
  | cons p rest ih =>
    obtain ⟨w, op⟩ := p
    simp only [List.all_cons, Bool.and_eq_true, decide_eq_true_eq] at hno
    obtain ⟨hop, hrest⟩ := hno
    simp only [runAll] at hrun
    cases h1 : op.run true w g0 with
    | error a => rw [h1] at hrun; simp at hrun
    | ok g1 =>
      rw [h1] at hrun
      have hg := ih g1 hrest hrun
      rw [hg]
      cases hi : op.isInit with
      | true =>
        cases op <;> simp [Op.isInit] at hi
        have hd := Init_debug_device h1
        simp [hd, Op.isInit]
      | false =>
        obtain ⟨hd, -, -⟩ := Op.run_frame h1 hi hop
        simp [hd, hi]

/-- C8, as the spec states it, fails: an object constructed and destroyed with neither
`Init` nor `DeInit` called on it passes the destructor's assertion in a debug build. -/
theorem destructor_passes_on_fresh_object :
    runAll true [] (constructor sampleDefaults) = .ok (constructor sampleDefaults) ∧
    (constructor sampleDefaults).m_device = none ∧
    destructor true (constructor sampleDefaults) = .ok () := by
  refine ⟨rfl, rfl, rfl⟩

/-- C8, amended: in a debug build, for every object destroyed at the end of a session in
which `DeInit` was not called, the destructor's assertion "Did not Call DeInit()." fires
if and only if `Init` has returned on the object; an object on which `Init` was never
called is destroyed with the assertion passing. (An `Init` that fails to create a device
does not return in a debug build.) -/
theorem destructor_fires_iff_Init_returned (d : MemberDefaults) (ops : List (World × Op))
    (g : GraphicsSystem) (hno : ops.all (fun p => decide (p.2 ≠ Op.DeInit)) = true)
    (hrun : runAll true ops (constructor d) = .ok g) :
    (destructor true g = .error ⟨.assertion "Did not Call DeInit().", g.calls⟩ ↔
      (ops.any fun p => p.2.isInit) = true) ∧
    (destructor true g = .ok () ↔ (ops.any fun p => p.2.isInit) = false) := by
  have hd := runAll_device ops (constructor d) g hno hrun
  simp only [constructor, Option.isSome_none, Bool.false_or] at hd
  cases hany : (ops.any fun p => p.2.isInit) <;> rw [hany] at hd <;>
    cases hdev : g.m_device <;> rw [hdev] at hd <;>
    simp [destructor, ASSERT_DEBUG, hdev] at hd ⊢

theorem destructor_fires_iff_Init_returned_witness :
    destructor true sampleInitialized =
      .error ⟨.assertion "Did not Call DeInit().", sampleInitialized.calls⟩ :=
  (destructor_fires_iff_Init_returned sampleDefaults
    [(sampleWorld 800 600 D3D_FEATURE_LEVEL_11_0 1, Op.Init 77)] sampleInitialized
    rfl rfl).1.mpr rfl

/-- An `Init` whose device creation hands back no device does not return in a debug
build. -/
theorem Init_debug_without_device_stops (w : World) (hwnd : HWND) (g : GraphicsSystem)
    (h : w.D3D11CreateDevice.device = none) : returned (Init true w hwnd g) = false := by
  cases hr : Init true w hwnd g with
  | error a => rfl
  | ok g' =>
    have hd := Init_debug_device hr
    obtain ⟨-, -, hdev, -⟩ := Init_returned hr
    rw [hdev, h] at hd
    simp at hd

/-! ## Device, context and swap chain together -/

/-- C9, as the spec states it, fails: in a release build, on a fresh object, with a device
created at feature level 10_1, `Init` returns through its early exit with device and
context set and the swap chain null. -/
theorem Init_early_exit_leaves_no_swap_chain :
    Consistent (constructor sampleDefaults) ∧
    Init false (sampleWorld 800 600 D3D_FEATURE_LEVEL_10_1 1) 77
      (constructor sampleDefaults) = .ok sampleEarlyExit ∧
    sampleEarlyExit.m_device = some 1 ∧
    sampleEarlyExit.m_deviceContext = some 2 ∧
    sampleEarlyExit.m_swapChain = none ∧
    ¬ Consistent sampleEarlyExit := by
  refine ⟨by decide, rfl, rfl, rfl, rfl, by decide⟩

/-- C9, amended: "device, immediate context and swap chain are all null or all non-null"
holds in every freshly constructed state and after `DeInit` run on any state whatever,
and every public operation that returns preserves it, except an `Init` that returns
through its feature-level early exit: an `Init` that returns with feature level 11_0
establishes it, every operation other than `Init` preserves it, and in a debug build,
where the early exit stops at its assertion, every operation that returns preserves
it. -/
theorem public_operations_keep_handles_together :
    (∀ d : MemberDefaults, Consistent (constructor d)) ∧
    (∀ x : GraphicsSystem, Consistent (DeInit x)) ∧
    (∀ (dbg : Bool) (w : World) (op : Op) (g g' : GraphicsSystem),
      Consistent g → op.run dbg w g = .ok g' →
      (op.isInit = true → g'.m_featureLevel = D3D_FEATURE_LEVEL_11_0) → Consistent g') ∧
    (∀ (w : World) (op : Op) (g g' : GraphicsSystem),
      Consistent g → op.run true w g = .ok g' → Consistent g') := by
  have hfresh : ∀ d : MemberDefaults, Consistent (constructor d) := by
    intro d
    simp [Consistent, constructor]
  have hde : ∀ x : GraphicsSystem, Consistent (DeInit x) := by
    intro x
    cases x
    rename_i ctx _ _ _ _ _ sf _ _ _ _ _ _ _ _ _ _
    cases ctx <;> cases sf <;> simp [Consistent, DeInit, GraphicsSystem.call]
  have hmain : ∀ (dbg : Bool) (w : World) (op : Op) (g g' : GraphicsSystem),
      Consistent g → op.run dbg w g = .ok g' →
      (op.isInit = true → g'.m_featureLevel = D3D_FEATURE_LEVEL_11_0 ∨ dbg = true) →
      Consistent g' := by
    intro dbg w op g g' hg hrun hlevel
    cases hi : op.isInit with
    | true =>
      cases op <;> simp [Op.isInit] at hi
      obtain ⟨-, -, -, -, hcase⟩ := Init_returned hrun
      rcases hcase with ⟨hf, hne, -⟩ | ⟨-, ⟨h1, h2, h3, -⟩, -⟩
      · rcases hlevel rfl with h | h
        · exact absurd h hne
        · rw [hf] at h; simp at h
      · simp [Consistent, h1, h2, h3]
    | false =>
      by_cases hdi : op = .DeInit
      · subst hdi
        simp only [Op.run, Except.ok.injEq] at hrun
        subst hrun
        exact hde g
      · obtain ⟨h1, h2, h3⟩ := Op.run_frame hrun hi hdi
        simpa [Consistent, h1, h2, h3] using hg
  refine ⟨hfresh, hde, ?_, ?_⟩
  · intro dbg w op g g' hg hrun h
    exact hmain dbg w op g g' hg hrun fun hi => Or.inl (h hi)
  · intro w op g g' hg hrun
    exact hmain true w op g g' hg hrun fun _ => Or.inr rfl

theorem public_operations_keep_handles_together_witness :
    Consistent sampleInitialized ∧ Consistent (DeInit sampleEarlyExit) :=
  ⟨public_operations_keep_handles_together.2.2.2
    (sampleWorld 800 600 D3D_FEATURE_LEVEL_11_0 1) (Op.Init 77)
    (constructor sampleDefaults) sampleInitialized (by decide) rfl,
   public_operations_keep_handles_together.2.1 sampleEarlyExit⟩

end DX11
